import Mathlib

/-!
Verification development for the opensearch-cluster-cdk repository.

Three pieces of the repository carry the decision logic that the claims
are about, and each is embedded shallowly below:

* the node topology planner: the distributed (non-single-node) branch of
  the `InfraStack` constructor in `src/lib/infra/infra-stack.ts`
  (lines 240 to 421), which derives auto-scaling-group capacities from
  the requested role counts and elects the discovery seed;
* the configuration assembler: the static method `getCfnInitElement`
  of the same file (lines 428 to 708), which builds the ordered list of
  instance-init elements, in particular the writes and appends to
  `config/elasticsearch.yml`;
* the process supervisor: the shell script `startCaptureProxy.sh`
  (the unnamed source file), which reconciles the Elasticsearch http
  port and the capture-proxy sidecar process on a node.

Machine numbers of the TypeScript source are JavaScript numbers; the
role counts and capacities are modelled as `Int` so that the underflow
`dataNodeCount - 1` at `dataNodeCount = 0` is representable exactly as
the source computes it.
-/

namespace OpensearchCdk

/-- The subset of `infraProps` (src/lib/infra/infra-stack.ts lines 47 to 77)
that the planner and the configuration assembler read.  String-typed
optional props use the literal sentinel "undefined", exactly as the
source compares them (`props.additionalConfig.toString() !== 'undefined'`).
`captureProxyEnabled` is declared as a string in the source and tested
for JavaScript truthiness, so the empty string is the falsy value.
`cpuTypeX86` models `props.cpuType === AmazonLinuxCpuType.X86_64`.
Instance types are kept as their identifying strings. -/
structure InfraProps where
  singleNodeCluster : Bool
  managerNodeCount : Int
  dataNodeCount : Int
  ingestNodeCount : Int
  clientNodeCount : Int
  mlNodeCount : Int
  dataNodeStorage : Int
  mlNodeStorage : Int
  cpuTypeX86 : Bool
  dataEc2InstanceType : String
  mlEc2InstanceType : String
  minDistribution : Bool
  enableRemoteStore : Bool
  use50PercentHeap : Bool
  jvmSysPropsString : String
  additionalConfig : String
  additionalOsdConfig : String
  dashboardsUrl : String
  captureProxyEnabled : String
  deriving Repr, DecidableEq

/-- `defaultInstanceType` (line 153): C5 xlarge on x86, C6G xlarge otherwise. -/
def defaultInstanceType (p : InfraProps) : String :=
  if p.cpuTypeX86 then "c5.xlarge" else "c6g.xlarge"

/-- One `AutoScalingGroup` as the planner creates it: the CDK construct id,
the final value of the "role" tag, the instance type, the EBS volume size,
the three (always equal) capacities, and the `nodeType` string passed to
`getCfnInitElement` for its init configuration. -/
structure Asg where
  constructId : String
  roleTag : String
  instanceType : String
  volumeGiB : Int
  desiredCapacity : Int
  minCapacity : Int
  maxCapacity : Int
  initNodeType : Option String
  deriving Repr, DecidableEq

/-- `managerAsgCapacity` as computed at lines 241 to 247. -/
def managerAsgCapacityOf (p : InfraProps) : Int :=
  if p.managerNodeCount > 0 then p.managerNodeCount - 1 else p.managerNodeCount

/-- `dataAsgCapacity` as computed at lines 241 to 247. -/
def dataAsgCapacityOf (p : InfraProps) : Int :=
  if p.managerNodeCount > 0 then p.dataNodeCount else p.dataNodeCount - 1

/-- `seedConfig` as set at lines 249 to 281: "seed-manager" exactly when the
manager auto-scaling group is created, i.e. when `managerAsgCapacity > 0`.  -/
def seedConfigOf (p : InfraProps) : String :=
  if managerAsgCapacityOf p > 0 then "seed-manager" else "seed-data"

/-- The outcome of the distributed branch of the `InfraStack` constructor
(lines 240 to 421): the two derived capacities, the elected seed config,
the optional manager, client and ml groups, the always-created seed and
data groups, and the final value of the `clientNodeAsg` variable, which is
either the separate client group or literally the data group object. -/
structure TopologyPlan where
  managerAsgCapacity : Int
  dataAsgCapacity : Int
  seedConfig : String
  managerGroup : Option Asg
  seedGroup : Asg
  dataGroup : Asg
  clientGroup : Option Asg
  clientNodeAsg : Asg
  mlGroup : Option Asg
  deriving Repr, DecidableEq

/-- The distributed (else) branch of the `InfraStack` constructor,
lines 240 to 421 of src/lib/infra/infra-stack.ts.

Notes kept from tracing the source:
* `managerNodeAsg` (line 250) is created only under `managerAsgCapacity > 0`;
  `dataNodeAsg` (line 312) is created unconditionally, whatever the value of
  `dataAsgCapacity`;
* `seedNodeAsg` (line 283) always gets the tag role = manager (line 310),
  while its instance type and volume follow `seedConfig`;
* the data group is first tagged role = data (line 338); when
  `clientNodeCount === 0` the variable `clientNodeAsg` is the data group
  itself (line 341) and line 372 then overwrites that same tag with
  role = client, so the final tag of the data group is "client" in that
  case and "data" otherwise. -/
def planDistributed (p : InfraProps) : TopologyPlan :=
  let managerGroup : Option Asg :=
    if managerAsgCapacityOf p > 0 then
      some { constructId := "managerNodeAsg", roleTag := "manager"
             instanceType := defaultInstanceType p, volumeGiB := 50
             desiredCapacity := managerAsgCapacityOf p
             minCapacity := managerAsgCapacityOf p
             maxCapacity := managerAsgCapacityOf p
             initNodeType := some "manager" }
    else none
  let seedGroup : Asg :=
    { constructId := "seedNodeAsg", roleTag := "manager"
      instanceType :=
        if seedConfigOf p = "seed-manager" then defaultInstanceType p
        else p.dataEc2InstanceType
      volumeGiB :=
        if seedConfigOf p = "seed-manager" then 50 else p.dataNodeStorage
      desiredCapacity := 1, minCapacity := 1, maxCapacity := 1
      initNodeType := some (seedConfigOf p) }
  let dataGroup : Asg :=
    { constructId := "dataNodeAsg"
      roleTag := if p.clientNodeCount = 0 then "client" else "data"
      instanceType := p.dataEc2InstanceType
      volumeGiB := p.dataNodeStorage
      desiredCapacity := dataAsgCapacityOf p
      minCapacity := dataAsgCapacityOf p
      maxCapacity := dataAsgCapacityOf p
      initNodeType := some "data" }
  let clientGroup : Option Asg :=
    if p.clientNodeCount = 0 then none
    else
      some { constructId := "clientNodeAsg", roleTag := "client"
             instanceType := defaultInstanceType p, volumeGiB := 50
             desiredCapacity := p.clientNodeCount
             minCapacity := p.clientNodeCount
             maxCapacity := p.clientNodeCount
             initNodeType := some "client" }
  let mlGroup : Option Asg :=
    if p.mlNodeCount > 0 then
      some { constructId := "mlNodeAsg", roleTag := "ml-node"
             instanceType := p.mlEc2InstanceType
             volumeGiB := p.mlNodeStorage
             desiredCapacity := p.mlNodeCount
             minCapacity := p.mlNodeCount
             maxCapacity := p.mlNodeCount
             initNodeType := some "ml" }
    else none
  { managerAsgCapacity := managerAsgCapacityOf p
    dataAsgCapacity := dataAsgCapacityOf p
    seedConfig := seedConfigOf p
    managerGroup := managerGroup
    seedGroup := seedGroup
    dataGroup := dataGroup
    clientGroup := clientGroup
    clientNodeAsg := clientGroup.getD dataGroup
    mlGroup := mlGroup }

/-- The auto-scaling groups actually constructed, in source order:
manager (line 250, conditional), seed (line 283), data (line 312,
unconditional), client (line 343, conditional), ml (line 375, conditional). -/
def createdGroups (t : TopologyPlan) : List Asg :=
  t.managerGroup.toList ++ [t.seedGroup] ++ [t.dataGroup]
    ++ t.clientGroup.toList ++ t.mlGroup.toList

/-- A cluster layout: the single-node branch creates one `Instance` tagged
role = client; the else branch runs the distributed planner. -/
inductive ClusterLayout where
  | singleNode (volumeGiB : Int) (roleTag : String) : ClusterLayout
  | distributed (plan : TopologyPlan) : ClusterLayout
  deriving Repr, DecidableEq

/-- Top of the `InfraStack` constructor branch at line 195: single-node
versus distributed. -/
def infraPlan (p : InfraProps) : ClusterLayout :=
  if p.singleNodeCluster then .singleNode p.dataNodeStorage "client"
  else .distributed (planDistributed p)

/-- A concrete baseline property record used by counterexamples and
witnesses; individual fields are overridden per claim. -/
def baseProps : InfraProps :=
  { singleNodeCluster := false, managerNodeCount := 0, dataNodeCount := 0
    ingestNodeCount := 0, clientNodeCount := 0, mlNodeCount := 0
    dataNodeStorage := 100, mlNodeStorage := 100, cpuTypeX86 := true
    dataEc2InstanceType := "r5.xlarge", mlEc2InstanceType := "g5.xlarge"
    minDistribution := false, enableRemoteStore := false
    use50PercentHeap := false
    jvmSysPropsString := "undefined", additionalConfig := "undefined"
    additionalOsdConfig := "undefined", dashboardsUrl := "undefined"
    captureProxyEnabled := "" }

/-! ## Process supervisor: startCaptureProxy.sh

The script runs under `set -e`.  Its phases: argument parsing (lines 18 to
36), process-table inspection of the Elasticsearch and capture-proxy
processes (lines 38 to 55), http-port reconciliation in elasticsearch.yml
(lines 57 to 70), Elasticsearch start or restart (lines 72 to 80),
capture-proxy stop and relaunch (lines 82 to 89), and the post-launch
liveness verification after a five second grace period (lines 91 to 99). -/

/-- Outcome of the argument-parsing while loop, lines 18 to 36.
`shiftAbort` models the invocation `--kafka-endpoints` with no following
value: the second `shift` fails with the positional list empty and `set -e`
aborts the script with status 1. -/
inductive ParseOutcome where
  | ok (kafkaEndpoints : Option String)
  | usageExit
  | unknownExit (opt : String)
  | shiftAbort
  deriving Repr, DecidableEq

/-- The argument loop: `--kafka-endpoints` consumes its value; `-h` and
`--help` call `usage` which exits 1; any other option starting with a dash
echoes an unknown-option message and calls `usage`; every other word is
skipped. -/
def parseArgs : List String → Option String → ParseOutcome
  | [], acc => .ok acc
  | a :: rest, acc =>
    if a = "--kafka-endpoints" then
      match rest with
      | v :: rest2 => parseArgs rest2 (some v)
      | [] => .shiftAbort
    else if a = "-h" ∨ a = "--help" then .usageExit
    else if a.startsWith "-" then .unknownExit a
    else parseArgs rest acc

/-- Node state observed by one invocation: liveness of the two processes
(pgrep, lines 38 and 45), the http.port entry of elasticsearch.yml if any
(the grep at line 58), whether the proxy log file nohup.out exists
(line 95), and whether the relaunched proxy is observed alive by the pgrep
re-check after the grace period (line 92). -/
structure ProxyWorld where
  esAlive : Bool
  proxyAlive : Bool
  httpPortLine : Option Int
  nohupLogExists : Bool
  proxyComesUp : Bool
  deriving Repr, DecidableEq

/-- The kind of mutation applied to elasticsearch.yml: the append branch of
line 62 or the sed replacement of line 68. -/
inductive ConfigEdit where
  | append
  | replace
  deriving Repr, DecidableEq

/-- Observable outcome of one script invocation: the exit status, whether
usage text was printed, whether the process table was inspected, the edit
applied to elasticsearch.yml and the resulting http.port entry, which
process actions were taken, and whether the tail of the proxy log was
printed. -/
structure ScriptResult where
  exitCode : Nat
  usagePrinted : Bool
  inspectedProcesses : Bool
  configEdit : Option ConfigEdit
  finalHttpPort : Option Int
  esKilled : Bool
  esStarted : Bool
  proxyKilled : Bool
  proxyStarted : Bool
  logTailPrinted : Bool
  deriving Repr, DecidableEq

/-- The port written into elasticsearch.yml, 19200. -/
def internalPort : Int := 19200

/-- One invocation of startCaptureProxy.sh on a node in state `w` with
argument list `args`, traced from the source:

* a usage error (lines 25 to 31) prints usage and exits 1 before any
  pgrep runs;
* if both processes are alive the script prints a message and exits 0
  with no mutation (lines 52 to 55);
* otherwise the script reads the http.port entry.  When elasticsearch.yml
  has NO line containing http.port, the command substitution
  es_http_port_entry with the grep pipeline has exit status 1, and since
  the script runs under `set -e` it aborts right there with status 1:
  the append branch at lines 60 to 63 is unreachable;
* with an entry equal to "http.port: 19200" the file is untouched and no
  restart is needed; with a different value the sed at line 68 replaces
  it in place and marks a restart;
* Elasticsearch is started when dead, killed and restarted when alive and
  a rewrite happened, otherwise left alone (lines 72 to 80);
* the proxy is killed if alive and always relaunched (lines 82 to 89);
  after the grace period, if the proxy is not observed alive, the tail of
  nohup.out is printed when that file exists (lines 91 to 99), and the
  script still reaches its final echo and exits 0. -/
def runStartCaptureProxy (args : List String) (w : ProxyWorld) : ScriptResult :=
  match parseArgs args none with
  | .usageExit =>
    { exitCode := 1, usagePrinted := true, inspectedProcesses := false
      configEdit := none, finalHttpPort := w.httpPortLine
      esKilled := false, esStarted := false
      proxyKilled := false, proxyStarted := false, logTailPrinted := false }
  | .unknownExit _ =>
    { exitCode := 1, usagePrinted := true, inspectedProcesses := false
      configEdit := none, finalHttpPort := w.httpPortLine
      esKilled := false, esStarted := false
      proxyKilled := false, proxyStarted := false, logTailPrinted := false }
  | .shiftAbort =>
    { exitCode := 1, usagePrinted := false, inspectedProcesses := false
      configEdit := none, finalHttpPort := w.httpPortLine
      esKilled := false, esStarted := false
      proxyKilled := false, proxyStarted := false, logTailPrinted := false }
  | .ok _ =>
    if w.esAlive && w.proxyAlive then
      { exitCode := 0, usagePrinted := false, inspectedProcesses := true
        configEdit := none, finalHttpPort := w.httpPortLine
        esKilled := false, esStarted := false
        proxyKilled := false, proxyStarted := false, logTailPrinted := false }
    else
      match w.httpPortLine with
      | none =>
        { exitCode := 1, usagePrinted := false, inspectedProcesses := true
          configEdit := none, finalHttpPort := none
          esKilled := false, esStarted := false
          proxyKilled := false, proxyStarted := false, logTailPrinted := false }
      | some port =>
        if port = internalPort then
          { exitCode := 0, usagePrinted := false, inspectedProcesses := true
            configEdit := none, finalHttpPort := some port
            esKilled := false, esStarted := !w.esAlive
            proxyKilled := w.proxyAlive, proxyStarted := true
            logTailPrinted := !w.proxyComesUp && w.nohupLogExists }
        else
          { exitCode := 0, usagePrinted := false, inspectedProcesses := true
            configEdit := some .replace, finalHttpPort := some internalPort
            esKilled := w.esAlive, esStarted := true
            proxyKilled := w.proxyAlive, proxyStarted := true
            logTailPrinted := !w.proxyComesUp && w.nohupLogExists }

/-- A concrete baseline node state for witnesses and counterexamples. -/
def baseWorld : ProxyWorld :=
  { esAlive := true, proxyAlive := false, httpPortLine := some internalPort
    nohupLogExists := true, proxyComesUp := true }

/-! ## Configuration assembler: getCfnInitElement

The static method at lines 428 to 708 builds an ordered list of
cloudformation-init elements.  The claims concern the writes and appends
to config/elasticsearch.yml and the ordering of the user overlay, so the
model keeps one constructor per element kind that matters to that file
and collapses the purely external elements (cloudwatch agent, package
install, downloads) into opaque markers in their source positions. -/

/-- One configuration line as a key-value pair. -/
abbrev ConfigEntry := String × String

/-- Structural merge of one key into an ordered key-value document:
overwrite in place when the key exists, append otherwise.  This models
the js-yaml load, assign, dump round trip used for `cluster.name` and
`discovery.ec2.tag.Name` (lines 503 to 518); js-yaml dump keeps insertion
order. -/
def setKey : List ConfigEntry → String → String → List ConfigEntry
  | [], k, v => [(k, v)]
  | (k', v') :: rest, k, v =>
    if k' = k then (k, v) :: rest else (k', v') :: setKey rest k v

/-- Render one entry the way a dumped yml mapping line looks. -/
def renderEntry (e : ConfigEntry) : String := e.1 ++ ": " ++ e.2

/-- Render a structural document to its lines. -/
def dumpLines (cfg : List ConfigEntry) : List String := cfg.map renderEntry

/-- Split a character list on a separator character. -/
def splitOnChar (c : Char) : List Char → List (List Char)
  | [] => [[]]
  | x :: xs =>
    let r := splitOnChar c xs
    if x = c then [] :: r
    else
      match r with
      | [] => [[x]]
      | h :: t => (x :: h) :: t

/-- The lines of a raw text block: split on the newline character,
`Char.ofNat 10`. -/
def splitLines (s : String) : List String :=
  (splitOnChar (Char.ofNat 10) s.toList).map fun cs => String.mk cs

/-- Parse one yml-style line into key and value at the first colon-space
separator; a line without the separator carries no key. -/
def parseEntryAux : List Char → List Char → Option ConfigEntry
  | acc, ':' :: ' ' :: rest => some (String.mk acc.reverse, String.mk rest)
  | acc, c :: rest => parseEntryAux (c :: acc) rest
  | _, [] => none

/-- Parse one rendered line. -/
def parseEntry (l : String) : Option ConfigEntry := parseEntryAux [] l.toList

/-- Last-occurrence-wins lookup over a rendered document: the value of a
key is the one of the last line that parses to that key. -/
def lastWins (doc : List String) (k : String) : Option String :=
  doc.reverse.findSome? fun l =>
    match parseEntry l with
    | some kv => if kv.1 = k then some kv.2 else none
    | none => none

/-- The element kinds of the init sequence, in the vocabulary of
getCfnInitElement.  `writeEsYml` is the truncating write of the base
template to config/elasticsearch.yml; `appendEsYml` is an appending write
to it (role overlay at line 534, user overlay at line 635); `appendOsYml`
are the remote-store feature appends, which target config/opensearch.yml
(lines 547 to 577); `appendJvmOptions` and `rewriteHeapJvmOptions` mutate
config/jvm.options (lines 608 to 630); the remaining markers stand for
the elements that touch no configuration document. -/
inductive InitElem where
  | pkgAndAgentSetup
  | writeEsYml (lines : List String)
  | appendEsYml (lines : List String)
  | installDiscoveryPlugin
  | appendOsYml (line : String)
  | appendJvmOptions (sysProps : String)
  | rewriteHeapJvmOptions
  | startElasticsearch
  | captureProxySetup
  | captureProxyScriptFile
  | dashboardsSetup
  deriving Repr, DecidableEq

/-- Elements that write some configuration overlay (base template, role
overlay, remote-store feature overlay, jvm flags, heap overlay, or the
user overlay append itself). -/
def touchesConfig : InitElem → Bool
  | .writeEsYml _ => true
  | .appendEsYml _ => true
  | .appendOsYml _ => true
  | .appendJvmOptions _ => true
  | .rewriteHeapJvmOptions => true
  | _ => false

/-- Modelled from the spec: the static base templates
(single-node-base-config.yml, multi-node-base-config.yml) and the
per-role overlay map (node-config) live in ../opensearch-config, outside
the given sources; the spec describes them as pure data
(ConfigOverlayStore).  They are kept abstract as parameters, since the
assembly claims depend only on merge order, never on their contents. -/
structure ConfigFiles where
  singleNodeBaseConfig : List ConfigEntry
  multiNodeBaseConfig : List ConfigEntry
  nodeConfig : String → List ConfigEntry

/-- The stack identity read from the CDK scope. -/
structure ScopeIds where
  stackName : String
  account : String
  region : String
  deriving Repr, DecidableEq

/-- Lines 432 to 578: the fixed agent setup followed by the
elasticsearch.yml base write and, in multi-node mode, the role overlay
append, the discovery plugin install and the remote-store feature
appends. -/
def setupElems (cf : ConfigFiles) (sc : ScopeIds) (p : InfraProps)
    (nodeType : Option String) : List InitElem :=
  let clusterName := sc.stackName ++ "-" ++ sc.account ++ "-" ++ sc.region
  [InitElem.pkgAndAgentSetup] ++
  (if p.singleNodeCluster then
    [InitElem.writeEsYml (dumpLines
        (setKey cf.singleNodeBaseConfig "cluster.name" clusterName))]
  else
    [InitElem.writeEsYml (dumpLines
        (setKey (setKey cf.multiNodeBaseConfig "cluster.name" clusterName)
          "discovery.ec2.tag.Name"
          (sc.stackName ++ "/seedNodeAsg," ++ sc.stackName ++ "/managerNodeAsg")))]
      ++ (match nodeType with
          | some nt => [InitElem.appendEsYml (dumpLines (cf.nodeConfig nt))]
          | none => [])
      ++ (if !p.minDistribution then [InitElem.installDiscoveryPlugin] else [])
      ++ (if p.enableRemoteStore then
            [InitElem.appendOsYml
              ("node.attr.remote_store.segment.repository: " ++ sc.stackName ++ "-repo"),
             InitElem.appendOsYml
              ("node.attr.remote_store.repository." ++ sc.stackName ++ "-repo.type: s3"),
             InitElem.appendOsYml
              ("node.attr.remote_store.repository." ++ sc.stackName
                ++ "-repo.settings:\n  bucket : " ++ sc.stackName
                ++ "\n  base_path: remote-store\n  region: " ++ sc.region),
             InitElem.appendOsYml
              ("node.attr.remote_store.translog.repository: " ++ sc.stackName ++ "-repo"),
             InitElem.appendOsYml
              ("node.attr.remote_store.state.repository: " ++ sc.stackName ++ "-repo")]
          else []))

/-- Lines 606 to 630: the jvm.options appends for system properties and
the heap-size rewrite when use50PercentHeap is set. -/
def optionsElems (p : InfraProps) : List InitElem :=
  (if p.jvmSysPropsString ≠ "undefined"
    then [InitElem.appendJvmOptions p.jvmSysPropsString] else []) ++
  (if p.use50PercentHeap then [InitElem.rewriteHeapJvmOptions] else [])

/-- Lines 632 to 640: the user overlay, appended to elasticsearch.yml as
raw text when additionalConfig is not the "undefined" sentinel. -/
def userOverlayElems (p : InfraProps) : List InitElem :=
  if p.additionalConfig ≠ "undefined"
    then [InitElem.appendEsYml (splitLines p.additionalConfig)] else []

/-- Lines 642 to 705: the service launch, the optional capture-proxy
download plus supervisor script file, and the optional dashboards setup
(whose own config writes target opensearch_dashboards.yml). -/
def trailingElems (p : InfraProps) : List InitElem :=
  [InitElem.startElasticsearch] ++
  (if p.captureProxyEnabled ≠ ""
    then [InitElem.captureProxySetup, InitElem.captureProxyScriptFile] else []) ++
  (if p.dashboardsUrl ≠ "undefined" then [InitElem.dashboardsSetup] else [])

/-- The full init element list of getCfnInitElement, in source push
order. -/
def getCfnInitElement (cf : ConfigFiles) (sc : ScopeIds) (p : InfraProps)
    (nodeType : Option String) : List InitElem :=
  setupElems cf sc p nodeType ++ optionsElems p ++ userOverlayElems p
    ++ trailingElems p

/-- Effect of one init element on the elasticsearch.yml line list: the
base write truncates (single greater-than redirect), the overlay appends
extend (double greater-than), and every other element leaves that file
alone. -/
def execEsYml (cur : List String) : InitElem → List String
  | .writeEsYml ls => ls
  | .appendEsYml ls => cur ++ ls
  | _ => cur

/-- The content of config/elasticsearch.yml after the init sequence. -/
def esYmlContent (elems : List InitElem) : List String :=
  elems.foldl execEsYml []

/-- Concrete overlay store contents used by witnesses: the claims hold for
any contents, these instantiate them. -/
def exampleConfigFiles : ConfigFiles :=
  { singleNodeBaseConfig := [("network.host", "0.0.0.0")]
    multiNodeBaseConfig := [("network.host", "0.0.0.0")]
    nodeConfig := fun _ => [("node.master", "true")] }

/-- Concrete stack identity used by witnesses. -/
def exampleScope : ScopeIds :=
  { stackName := "stk", account := "acct", region := "reg" }

/-! ### Claims about the topology planner -/

/-- C1 counterexample: with managerNodeCount = 1 (which is greater than 0) and
dataNodeCount = 2 in distributed mode, the code elects the seed config
"seed-data", not "seed-manager", and creates no manager group at all: the
election at lines 249 to 281 tests `managerAsgCapacity > 0`, i.e.
`managerNodeCount > 1`, not `managerNodeCount > 0` as the claim states. -/
theorem C1_counterexample :
    (planDistributed { baseProps with managerNodeCount := 1, dataNodeCount := 2 }).seedConfig
        ≠ "seed-manager" ∧
    (planDistributed { baseProps with managerNodeCount := 1, dataNodeCount := 2 }).managerGroup
        = none := by
  decide

/-- C1 amended: in distributed mode with managerNodeCount > 0 the data group
capacity equals dataNodeCount always; the seed config is "seed-manager" with a
manager group of desired capacity managerNodeCount - 1 exactly when
managerNodeCount > 1, while at managerNodeCount = 1 the seed config is
"seed-data" and no manager group is created. -/
theorem C1_amended (p : InfraProps) (hm : 0 < p.managerNodeCount) :
    (planDistributed p).dataGroup.desiredCapacity = p.dataNodeCount ∧
    (1 < p.managerNodeCount →
      (planDistributed p).seedConfig = "seed-manager" ∧
      (planDistributed p).managerGroup = some
        { constructId := "managerNodeAsg", roleTag := "manager"
          instanceType := defaultInstanceType p, volumeGiB := 50
          desiredCapacity := p.managerNodeCount - 1
          minCapacity := p.managerNodeCount - 1
          maxCapacity := p.managerNodeCount - 1
          initNodeType := some "manager" }) ∧
    (p.managerNodeCount = 1 →
      (planDistributed p).seedConfig = "seed-data" ∧
      (planDistributed p).managerGroup = none) := by
  have hman : managerAsgCapacityOf p = p.managerNodeCount - 1 := by
    simp [managerAsgCapacityOf, hm]
  refine ⟨?_, ?_, ?_⟩
  · simp [planDistributed, dataAsgCapacityOf, hm]
  · intro h1
    have hpos : managerAsgCapacityOf p > 0 := by rw [hman]; omega
    refine ⟨?_, ?_⟩
    · simp [planDistributed, seedConfigOf, hpos]
    · simp [planDistributed, hpos, hman]
      omega
  · intro h1
    have hz : ¬ managerAsgCapacityOf p > 0 := by rw [hman]; omega
    refine ⟨?_, ?_⟩
    · simp [planDistributed, seedConfigOf, hz]
    · simp [planDistributed, hz]

/-- C1 witness: at managerNodeCount = 3, dataNodeCount = 4 the amended claim
yields the concrete plan values. -/
theorem C1_witness :
    (planDistributed { baseProps with managerNodeCount := 3, dataNodeCount := 4 }).dataGroup.desiredCapacity
        = 4 ∧
    (planDistributed { baseProps with managerNodeCount := 3, dataNodeCount := 4 }).seedConfig
        = "seed-manager" := by
  have h := C1_amended { baseProps with managerNodeCount := 3, dataNodeCount := 4 } (by decide)
  exact ⟨h.1, (h.2.1 (by decide)).1⟩

/-- C2: the code has no configuration-error path at all.  With
managerNodeCount = 0 and dataNodeCount = 0 in distributed mode (the
`baseProps` record) it computes dataAsgCapacity = -1 and still constructs
the data auto-scaling group, a member of the created groups, with that
negative desired capacity; the top-level branch simply returns the plan. -/
theorem C2_planner_underflows :
    (planDistributed baseProps).dataGroup.desiredCapacity = -1 ∧
    (planDistributed baseProps).dataGroup ∈ createdGroups (planDistributed baseProps) ∧
    infraPlan baseProps = .distributed (planDistributed baseProps) := by
  decide

/-- C5 counterexample: at managerNodeCount = 0, dataNodeCount = 1 the seed
config is "seed-data" as the claim expects, but a separate data group IS
created (the `dataNodeAsg` construction at line 312 is unconditional) and
its desired capacity is 0, violating the no-zero-size-group invariant. -/
theorem C5_counterexample :
    (planDistributed { baseProps with dataNodeCount := 1 }).dataGroup.desiredCapacity = 0 ∧
    (planDistributed { baseProps with dataNodeCount := 1 }).dataGroup
        ∈ createdGroups (planDistributed { baseProps with dataNodeCount := 1 }) ∧
    (planDistributed { baseProps with dataNodeCount := 1 }).seedConfig = "seed-data" := by
  decide

/-- C5 amended: the manager, client and ml groups are guarded (created only
when their capacity is positive, respectively the client count nonzero, and
when created their desired capacity is positive given a non-negative client
count); the seed group always has capacity 1; but the data group is always
created with desired capacity `dataAsgCapacityOf`, which is 0 for
managerNodeCount = 0, dataNodeCount = 1. -/
theorem C5_amended (p : InfraProps) (hc : 0 ≤ p.clientNodeCount) :
    ((planDistributed p).managerGroup.isSome ↔ managerAsgCapacityOf p > 0) ∧
    ((planDistributed p).clientGroup.isSome ↔ p.clientNodeCount ≠ 0) ∧
    ((planDistributed p).mlGroup.isSome ↔ p.mlNodeCount > 0) ∧
    (planDistributed p).seedGroup.desiredCapacity = 1 ∧
    (planDistributed p).dataGroup.desiredCapacity = dataAsgCapacityOf p ∧
    (∀ g, (planDistributed p).managerGroup = some g → 0 < g.desiredCapacity) ∧
    (∀ g, (planDistributed p).clientGroup = some g → 0 < g.desiredCapacity) ∧
    (∀ g, (planDistributed p).mlGroup = some g → 0 < g.desiredCapacity) := by
  refine ⟨?_, ?_, ?_, ?_, ?_, ?_, ?_, ?_⟩
  · by_cases h : managerAsgCapacityOf p > 0 <;> simp [planDistributed, h]
  · by_cases h : p.clientNodeCount = 0 <;> simp [planDistributed, h]
  · by_cases h : p.mlNodeCount > 0 <;> simp [planDistributed, h]
  · simp [planDistributed]
  · simp [planDistributed]
  · intro g hg
    by_cases h : managerAsgCapacityOf p > 0 <;> simp [planDistributed, h] at hg
    subst hg; simpa using h
  · intro g hg
    by_cases h : p.clientNodeCount = 0 <;> simp [planDistributed, h] at hg
    subst hg
    simp only []
    omega
  · intro g hg
    by_cases h : p.mlNodeCount > 0 <;> simp [planDistributed, h] at hg
    subst hg; simpa using h

/-- C5 amended witness: the concrete scenario managerNodeCount = 0,
dataNodeCount = 1 instantiates the amended claim. -/
theorem C5_witness :
    (planDistributed { baseProps with dataNodeCount := 1 }).seedGroup.desiredCapacity = 1 ∧
    (planDistributed { baseProps with dataNodeCount := 1 }).dataGroup.desiredCapacity
        = dataAsgCapacityOf { baseProps with dataNodeCount := 1 } := by
  have h := C5_amended { baseProps with dataNodeCount := 1 } (by decide)
  exact ⟨h.2.2.2.1, h.2.2.2.2.1⟩

/-- C8: with clientNodeCount = 0 no separate client group is constructed and
the `clientNodeAsg` variable is bound to the data group itself (line 341);
in the embedding the client target is literally the data group value. -/
theorem C8_client_target_identity (p : InfraProps) (h : p.clientNodeCount = 0) :
    (planDistributed p).clientNodeAsg = (planDistributed p).dataGroup ∧
    (planDistributed p).clientGroup = none := by
  refine ⟨?_, ?_⟩ <;> simp [planDistributed, h]

/-- C8 witness: concrete distributed input with clientNodeCount = 0. -/
theorem C8_witness :
    (planDistributed { baseProps with managerNodeCount := 3, dataNodeCount := 4 }).clientNodeAsg
      = (planDistributed { baseProps with managerNodeCount := 3, dataNodeCount := 4 }).dataGroup := by
  exact (C8_client_target_identity { baseProps with managerNodeCount := 3, dataNodeCount := 4 }
    (by decide)).1

/-- C10: the seed group is always tagged role = manager (line 310), even when
the seed config is "seed-data"; in that case only the instance type and the
storage volume follow the data-family configuration, and in the
"seed-manager" case they follow the default manager configuration. -/
theorem C10_seed_role_tag (p : InfraProps) :
    (planDistributed p).seedGroup.roleTag = "manager" ∧
    ((planDistributed p).seedConfig = "seed-data" →
      (planDistributed p).seedGroup.instanceType = p.dataEc2InstanceType ∧
      (planDistributed p).seedGroup.volumeGiB = p.dataNodeStorage) ∧
    ((planDistributed p).seedConfig = "seed-manager" →
      (planDistributed p).seedGroup.instanceType = defaultInstanceType p ∧
      (planDistributed p).seedGroup.volumeGiB = 50) := by
  refine ⟨by simp [planDistributed], ?_, ?_⟩
  · intro h
    by_cases hm : managerAsgCapacityOf p > 0
    · exfalso
      have hs : (planDistributed p).seedConfig = "seed-manager" := by
        simp [planDistributed, seedConfigOf, hm]
      rw [hs] at h
      exact absurd h (by decide)
    · refine ⟨?_, ?_⟩ <;> simp [planDistributed, seedConfigOf, hm]
  · intro h
    by_cases hm : managerAsgCapacityOf p > 0
    · refine ⟨?_, ?_⟩ <;> simp [planDistributed, seedConfigOf, hm]
    · exfalso
      have hs : (planDistributed p).seedConfig = "seed-data" := by
        simp [planDistributed, seedConfigOf, hm]
      rw [hs] at h
      exact absurd h (by decide)

/-- C10 witness: at managerNodeCount = 0, dataNodeCount = 3 the seed is
elected from the data family yet still tagged role = manager, with the data
instance type and data volume. -/
theorem C10_witness :
    (planDistributed { baseProps with dataNodeCount := 3 }).seedGroup.roleTag = "manager" ∧
    (planDistributed { baseProps with dataNodeCount := 3 }).seedGroup.instanceType
      = ({ baseProps with dataNodeCount := 3 } : InfraProps).dataEc2InstanceType := by
  refine ⟨(C10_seed_role_tag _).1, ?_⟩
  exact ((C10_seed_role_tag { baseProps with dataNodeCount := 3 }).2.1 (by decide)).1

/-! ### Claims about the process supervisor -/

/-- C3 counterexample: a run that reaches the sidecar launch (primary alive,
sidecar dead, port already correct) with the sidecar failing to come up and
the log file present does print the log tail, yet the script completes and
exits 0, not with a failure status as the claim states: after the tail the
script falls through to its final echo and terminates normally. -/
theorem C3_counterexample :
    (runStartCaptureProxy ["--kafka-endpoints", "broker1:9092"]
        { baseWorld with proxyComesUp := false }).logTailPrinted = true ∧
    (runStartCaptureProxy ["--kafka-endpoints", "broker1:9092"]
        { baseWorld with proxyComesUp := false }).exitCode = 0 := by
  decide

/-- C3 amended: when the sidecar is not observed alive after the grace
period, the supervisor prints the tail of the sidecar log exactly when the
log file exists, leaves the state the primary reached untouched by the
verification outcome (the primary actions are identical to a run where the
sidecar does come up), and exits with status 0, not a failure status. -/
theorem C3_amended (args : List String) (ke : Option String) (w : ProxyWorld)
    (hargs : parseArgs args none = .ok ke)
    (hnotboth : (w.esAlive && w.proxyAlive) = false)
    (hport : w.httpPortLine.isSome)
    (hfail : w.proxyComesUp = false) :
    (runStartCaptureProxy args w).exitCode = 0 ∧
    (runStartCaptureProxy args w).proxyStarted = true ∧
    (runStartCaptureProxy args w).logTailPrinted = w.nohupLogExists ∧
    (runStartCaptureProxy args w).esKilled
      = (runStartCaptureProxy args { w with proxyComesUp := true }).esKilled ∧
    (runStartCaptureProxy args w).esStarted
      = (runStartCaptureProxy args { w with proxyComesUp := true }).esStarted ∧
    (runStartCaptureProxy args w).configEdit
      = (runStartCaptureProxy args { w with proxyComesUp := true }).configEdit := by
  obtain ⟨port, hp⟩ := Option.isSome_iff_exists.mp hport
  by_cases hpe : port = internalPort <;>
    simp [runStartCaptureProxy, hargs, hnotboth, hp, hpe, hfail]

/-- C3 amended witness: concrete failing-sidecar run. -/
theorem C3_witness :
    (runStartCaptureProxy ["--kafka-endpoints", "b:9092"]
        { baseWorld with proxyComesUp := false }).exitCode = 0 ∧
    (runStartCaptureProxy ["--kafka-endpoints", "b:9092"]
        { baseWorld with proxyComesUp := false }).logTailPrinted
      = ({ baseWorld with proxyComesUp := false } : ProxyWorld).nohupLogExists := by
  have h := C3_amended ["--kafka-endpoints", "b:9092"] (some "b:9092")
    { baseWorld with proxyComesUp := false } (by decide) (by decide) (by decide) (by decide)
  exact ⟨h.1, h.2.2.1⟩

/-- C4 counterexample: invoking the supervisor with an empty argument list
is a usage error by the claim (the required --kafka-endpoints is missing),
yet the script prints no usage text, proceeds to inspect the process table,
and here exits 0: the argument loop never checks that the required option
was supplied. -/
theorem C4_counterexample :
    (runStartCaptureProxy [] { baseWorld with proxyAlive := true }).usagePrinted = false ∧
    (runStartCaptureProxy [] { baseWorld with proxyAlive := true }).inspectedProcesses = true ∧
    (runStartCaptureProxy [] { baseWorld with proxyAlive := true }).exitCode = 0 := by
  decide

/-- C4 amended: an unknown dashed option or -h or --help prints usage and
exits 1 before any process-table inspection and without any mutation; a
merely missing --kafka-endpoints is not detected as a usage error. -/
theorem C4_amended (args : List String) (w : ProxyWorld)
    (h : parseArgs args none = .usageExit ∨ ∃ s, parseArgs args none = .unknownExit s) :
    (runStartCaptureProxy args w).exitCode = 1 ∧
    (runStartCaptureProxy args w).usagePrinted = true ∧
    (runStartCaptureProxy args w).inspectedProcesses = false ∧
    (runStartCaptureProxy args w).configEdit = none ∧
    (runStartCaptureProxy args w).esKilled = false ∧
    (runStartCaptureProxy args w).esStarted = false ∧
    (runStartCaptureProxy args w).proxyKilled = false ∧
    (runStartCaptureProxy args w).proxyStarted = false := by
  rcases h with h | ⟨s, h⟩ <;> simp [runStartCaptureProxy, h]

/-- C4 amended witness: the --help invocation. -/
theorem C4_witness :
    (runStartCaptureProxy ["--help"] baseWorld).exitCode = 1 ∧
    (runStartCaptureProxy ["--help"] baseWorld).usagePrinted = true ∧
    (runStartCaptureProxy ["--help"] baseWorld).inspectedProcesses = false := by
  have h := C4_amended ["--help"] baseWorld (Or.inl (by decide))
  exact ⟨h.1, h.2.1, h.2.2.1⟩

/-- C6: when both the primary and the sidecar are already alive (and in
particular when the configured port already equals the internal port), the
invocation performs no configuration edit, kills nothing, starts nothing,
and exits 0 immediately after the inspection, lines 52 to 55. -/
theorem C6_noop_when_converged (args : List String) (ke : Option String) (w : ProxyWorld)
    (hargs : parseArgs args none = .ok ke)
    (hes : w.esAlive = true) (hpx : w.proxyAlive = true)
    (_hport : w.httpPortLine = some internalPort) :
    (runStartCaptureProxy args w).exitCode = 0 ∧
    (runStartCaptureProxy args w).configEdit = none ∧
    (runStartCaptureProxy args w).finalHttpPort = w.httpPortLine ∧
    (runStartCaptureProxy args w).esKilled = false ∧
    (runStartCaptureProxy args w).esStarted = false ∧
    (runStartCaptureProxy args w).proxyKilled = false ∧
    (runStartCaptureProxy args w).proxyStarted = false := by
  simp [runStartCaptureProxy, hargs, hes, hpx]

/-- C6 witness: concrete converged node. -/
theorem C6_witness :
    (runStartCaptureProxy ["--kafka-endpoints", "k:9092"]
        { baseWorld with proxyAlive := true }).exitCode = 0 ∧
    (runStartCaptureProxy ["--kafka-endpoints", "k:9092"]
        { baseWorld with proxyAlive := true }).configEdit = none := by
  have h := C6_noop_when_converged ["--kafka-endpoints", "k:9092"] (some "k:9092")
    { baseWorld with proxyAlive := true } (by decide) (by decide) (by decide) (by decide)
  exact ⟨h.1, h.2.1⟩

/-- C7: evaluation at the failing input.  When elasticsearch.yml contains no
http.port line (and the run reaches the reconciliation step: here the
primary is alive and the sidecar dead), the script does NOT append the
internal-port setting as the claim and the append branch at lines 60 to 63
intend: the grep command substitution at line 58 has exit status 1 and
`set -e` aborts the whole invocation with status 1, file untouched, nothing
started. -/
theorem C7_absent_port_aborts :
    (runStartCaptureProxy ["--kafka-endpoints", "kb:9092"]
        { baseWorld with httpPortLine := none }).exitCode = 1 ∧
    (runStartCaptureProxy ["--kafka-endpoints", "kb:9092"]
        { baseWorld with httpPortLine := none }).configEdit = none ∧
    (runStartCaptureProxy ["--kafka-endpoints", "kb:9092"]
        { baseWorld with httpPortLine := none }).finalHttpPort = none ∧
    (runStartCaptureProxy ["--kafka-endpoints", "kb:9092"]
        { baseWorld with httpPortLine := none }).esStarted = false ∧
    (runStartCaptureProxy ["--kafka-endpoints", "kb:9092"]
        { baseWorld with httpPortLine := none }).proxyStarted = false := by
  decide

/-! ### Claims about the configuration assembler -/

/-- Appending a block after a document preserves last-wins resolutions of
the block: a key whose last occurrence in the appended block has value v
resolves to v in the whole document. -/
theorem lastWins_append_right (s u : List String) (k v : String)
    (h : lastWins u k = some v) : lastWins (s ++ u) k = some v := by
  unfold lastWins at h ⊢
  rw [List.reverse_append, List.findSome?_append, h]
  rfl

/-- The jvm.options elements leave elasticsearch.yml unchanged. -/
theorem foldl_optionsElems (p : InfraProps) (c : List String) :
    List.foldl execEsYml c (optionsElems p) = c := by
  unfold optionsElems
  by_cases h1 : p.jvmSysPropsString ≠ "undefined" <;>
    by_cases h2 : p.use50PercentHeap <;>
      simp [h1, h2, execEsYml]

/-- The trailing elements leave elasticsearch.yml unchanged. -/
theorem foldl_trailingElems (p : InfraProps) (c : List String) :
    List.foldl execEsYml c (trailingElems p) = c := by
  unfold trailingElems
  by_cases h1 : p.captureProxyEnabled ≠ "" <;>
    by_cases h2 : p.dashboardsUrl ≠ "undefined" <;>
      simp [h1, h2, execEsYml]

/-- No trailing element writes a configuration overlay. -/
theorem trailingElems_not_config (p : InfraProps) :
    ∀ e ∈ trailingElems p, touchesConfig e = false := by
  unfold trailingElems
  by_cases h1 : p.captureProxyEnabled ≠ "" <;>
    by_cases h2 : p.dashboardsUrl ≠ "undefined" <;>
      simp [h1, h2, touchesConfig]

/-- C9: with a user overlay supplied (additionalConfig not the sentinel),
the rendered elasticsearch.yml is exactly the structural document followed
verbatim by the user overlay lines; consequently any key whose last
occurrence in the user overlay carries value v resolves to v in the whole
document under last-occurrence-wins parsing; and in the init element list
the user append is followed only by elements that write no configuration
overlay, so it comes after the base template, the role overlay, the
feature overlays and the heap overlay. -/
theorem C9_user_overlay_last (cf : ConfigFiles) (sc : ScopeIds) (p : InfraProps)
    (nodeType : Option String) (hu : p.additionalConfig ≠ "undefined") :
    esYmlContent (getCfnInitElement cf sc p nodeType)
      = esYmlContent (getCfnInitElement cf sc
          { p with additionalConfig := "undefined" } nodeType)
        ++ splitLines p.additionalConfig ∧
    (∀ k v, lastWins (splitLines p.additionalConfig) k = some v →
      lastWins (esYmlContent (getCfnInitElement cf sc p nodeType)) k = some v) ∧
    (∃ pre post,
      getCfnInitElement cf sc p nodeType
        = pre ++ InitElem.appendEsYml (splitLines p.additionalConfig) :: post ∧
      ∀ e ∈ post, touchesConfig e = false) := by
  have hsetup : setupElems cf sc { p with additionalConfig := "undefined" } nodeType
      = setupElems cf sc p nodeType := rfl
  have hopts : optionsElems { p with additionalConfig := "undefined" }
      = optionsElems p := rfl
  have htrail : trailingElems { p with additionalConfig := "undefined" }
      = trailingElems p := rfl
  have huser : userOverlayElems p
      = [InitElem.appendEsYml (splitLines p.additionalConfig)] := by
    simp [userOverlayElems, hu]
  have huser0 : userOverlayElems { p with additionalConfig := "undefined" } = [] := by
    simp [userOverlayElems]
  have hcontent : esYmlContent (getCfnInitElement cf sc p nodeType)
      = esYmlContent (getCfnInitElement cf sc
          { p with additionalConfig := "undefined" } nodeType)
        ++ splitLines p.additionalConfig := by
    unfold esYmlContent getCfnInitElement
    rw [hsetup, hopts, htrail, huser, huser0]
    simp [List.foldl_append, foldl_optionsElems, foldl_trailingElems, execEsYml]
  refine ⟨hcontent, ?_, ?_⟩
  · intro k v hv
    rw [hcontent]
    exact lastWins_append_right _ _ _ _ hv
  · refine ⟨setupElems cf sc p nodeType ++ optionsElems p, trailingElems p, ?_,
      trailingElems_not_config p⟩
    unfold getCfnInitElement
    rw [huser]
    simp [List.append_assoc]

/-- C9 witness: with the concrete overlay store, a multi-node assembly for
the data role and the user overlay line "cluster.name: custom", the key
cluster.name is present structurally (set to stk-acct-reg by the identity
merge) and in the user overlay, and resolves to the user value custom. -/
theorem C9_witness :
    lastWins (esYmlContent (getCfnInitElement exampleConfigFiles exampleScope
        { baseProps with additionalConfig := "cluster.name: custom" } (some "data")))
      "cluster.name" = some "custom" ∧
    lastWins (esYmlContent (getCfnInitElement exampleConfigFiles exampleScope
        { baseProps with additionalConfig := "undefined" } (some "data")))
      "cluster.name" = some "stk-acct-reg" := by
  constructor
  · exact (C9_user_overlay_last exampleConfigFiles exampleScope
      { baseProps with additionalConfig := "cluster.name: custom" } (some "data")
      (by decide)).2.1 "cluster.name" "custom" (by decide)
  · decide

end OpensearchCdk
